import Mathlib

/-!
Shallow embedding of `src/firebase.py` (Firebase Public Access Checker).

The script is a linear pipeline: normalize the target URL, issue three GET
read probes, optionally one PUT write probe (with a best-effort DELETE
cleanup), aggregate flags, print a report and exit.  Network behaviour is
modelled by an oracle `Net` mapping each (method, url) request to its
outcome; the run is then a pure function of the CLI arguments, the oracle
and the current timestamp.  The printed lines and the issued requests are
collected explicitly so that claims about the report text and the request
trace can be stated.
-/

namespace Firebase

/-- JSON values, the possible results of `response.json()`. -/
inductive JsonValue where
  | null
  | bool (b : Bool)
  | num (n : Int)
  | str (s : String)
  | arr (xs : List JsonValue)
  | obj (fields : List (String × JsonValue))

/-- Python `data is None`. -/
def JsonValue.isNull : JsonValue → Bool
  | .null => true
  | _ => false

/-- Python `data == \x7b\x7d`: only the empty dict compares equal to the empty dict. -/
def JsonValue.isEmptyObj : JsonValue → Bool
  | .obj [] => true
  | _ => false

/-- Python `type(data).__name__` for a decoded JSON value. -/
def JsonValue.typeName : JsonValue → String
  | .null => "NoneType"
  | .bool _ => "bool"
  | .num _ => "int"
  | .str _ => "str"
  | .arr _ => "list"
  | .obj _ => "dict"

/-- `data is not None and data != \x7b\x7d` (line 74 of `firebase.py`). -/
def hasDataOf (v : JsonValue) : Bool := !v.isNull && !v.isEmptyObj

/-- An HTTP response as the script observes it: status code, body
(`response.content` / `response.text`), the `Content-Type` header when
present, and the outcome of `response.json()` on the body (`none` models
a `json.JSONDecodeError`). -/
structure Response where
  status : Nat
  body : String
  contentType : Option String
  jsonResult : Option JsonValue

inductive HttpMethod where
  | GET
  | PUT
  | DELETE
deriving DecidableEq

/-- Outcome of issuing one HTTP request: a response, or one of the
exception classes the script distinguishes, each carrying its Python
`str(e)` message. -/
inductive ReqOutcome where
  | ok (r : Response)
  | timeout (msg : String)
  | connError (msg : String)
  | otherExn (msg : String)

/-- The network oracle: what each (method, url) request returns. -/
def Net : Type := HttpMethod → String → ReqOutcome

/-- A request as issued by the script: method, url, and the per-request
timeout in seconds actually passed to `requests`. -/
structure Request where
  method : HttpMethod
  url : String
  timeoutSec : Nat
deriving DecidableEq

/-- Strip trailing slash characters, as `FirebaseChecker.__init__` does. -/
def rstripSlash (s : String) : String :=
  String.mk ((s.data.reverse.dropWhile (fun c => c = '/')).reverse)

/-- Python `s.startswith(pre)`. -/
def pyStartsWith (s pre : String) : Bool := pre.data.isPrefixOf s.data

/-- Lines 33-34: prepend `https://` unless the string starts with `http`. -/
def prependScheme (s : String) : String :=
  if pyStartsWith s "http" then s else "https://" ++ s

/-- The URL the probes use: the rstrip from `__init__` followed by
the scheme prepending of `normalize_url`. -/
def normalizedOf (raw : String) : String := prependScheme (rstripSlash raw)

/-- Characters allowed in a URL scheme (`urllib.parse.scheme_chars`). -/
def schemeChar (c : Char) : Bool := c.isAlphanum || c = '+' || c = '-' || c = '.'

/-- Split a character list at the first colon, if any. -/
def splitColon : List Char → Option (List Char × List Char)
  | [] => none
  | c :: cs =>
    if c = ':' then some ([], cs)
    else (splitColon cs).map (fun p => (c :: p.1, p.2))

/-- `urllib.parse.urlsplit` accepts `url[:i]` as a scheme when it is
non-empty, starts with an ASCII letter and consists of scheme characters. -/
def validScheme (cs : List Char) : Bool :=
  match cs with
  | [] => false
  | c :: _ => c.isAlpha && cs.all schemeChar

/-- Drop a leading `scheme:` when present, as `urlsplit` does. -/
def stripScheme (cs : List Char) : List Char :=
  match splitColon cs with
  | some (before, after) => if validScheme before then after else cs
  | none => cs

/-- After the scheme, `urlsplit` takes a netloc only after a leading `//`,
up to the first `/`, `?` or `#`. -/
def netlocChars (cs : List Char) : List Char :=
  match stripScheme cs with
  | '/' :: '/' :: rest => rest.takeWhile (fun c => c ≠ '/' && c ≠ '?' && c ≠ '#')
  | _ => []

/-- `urlparse(url).netloc`, modelling `urllib.parse` for the URLs the
script builds. -/
def netlocOf (s : String) : String := String.mk (netlocChars s.data)

/-- Whether `urlparse` would find a scheme in the string at all. -/
def hasScheme (s : String) : Bool :=
  match splitColon s.data with
  | some (before, _) => validScheme before
  | none => false

/-- Whether `pat` occurs as a contiguous sublist of the character list. -/
def subOccurs (pat : List Char) : List Char → Bool
  | [] => pat.isEmpty
  | c :: cs => pat.isPrefixOf (c :: cs) || subOccurs pat cs

/-- Python `pat in s` (substring containment). -/
def strContainsSub (s pat : String) : Bool := subOccurs pat.data s.data

/-- A successful per-endpoint probe record (the dict built at lines 63-78);
`has_data` and `data_type` are `none` when the fields were never added. -/
structure ProbeOk where
  status_code : Nat
  accessible : Bool
  response_size : Nat
  content_type : String
  has_data : Option Bool
  data_type : Option String
deriving DecidableEq

/-- One entry of the read-results dict: a probe record or an error string. -/
inductive ReadEntry where
  | ok (r : ProbeOk)
  | err (msg : String)
deriving DecidableEq

/-- The three fixed read endpoints (lines 49-53). -/
def test_endpoints : List String := [".json", "/.json?shallow=true", "/test.json"]

/-- Build the probe record from a response (lines 63-78). -/
def mkProbe (r : Response) : ProbeOk :=
  let base : ProbeOk :=
    { status_code := r.status
      accessible := r.status == 200
      response_size := r.body.length
      content_type := r.contentType.getD "unknown"
      has_data := none
      data_type := none }
  if r.status = 200 ∧ r.body ≠ "" then
    match r.jsonResult with
    | some v => { base with has_data := some (hasDataOf v), data_type := some v.typeName }
    | none => { base with has_data := some false, data_type := some "invalid_json" }
  else base

/-- The entry recorded for one endpoint, given the outcome of its request
(the try/except at lines 59-91). -/
def entryOf (net : Net) (url : String) : ReadEntry :=
  match net .GET url with
  | .ok r => .ok (mkProbe r)
  | .timeout _ => .err "Request timed out"
  | .connError _ => .err "Connection error"
  | .otherExn m => .err m

/-- Console lines produced while probing one endpoint. -/
def probePrints (url : String) : ReqOutcome → List String
  | .ok _ => ["Testing: " ++ url]
  | .timeout _ => ["Testing: " ++ url, "❌ Timeout for " ++ url]
  | .connError _ => ["Testing: " ++ url, "❌ Connection error for " ++ url]
  | .otherExn m => ["Testing: " ++ url, "❌ Error for " ++ url ++ ": " ++ m]

/-- The `for endpoint in test_endpoints` loop body, threading the results
dict (as an association list in insertion order), the request trace and
the console output. -/
def readLoop (base : String) (net : Net) :
    List String → List (String × ReadEntry) × List Request × List String
  | [] => ([], [], [])
  | e :: rest =>
    let url := base ++ e
    let acc := readLoop base net rest
    ((e, entryOf net url) :: acc.1,
     ⟨.GET, url, 10⟩ :: acc.2.1,
     probePrints url (net .GET url) ++ acc.2.2)

/-- `FirebaseChecker.check_public_read_access`: results, requests issued
(each GET hardcodes `timeout=10`, line 61), console output. -/
def check_public_read_access (base : String) (net : Net) :
    List (String × ReadEntry) × List Request × List String :=
  readLoop base net test_endpoints

/-- The write result: the dict from lines 104-108, the error dict from
line 121, or the empty dict `main` passes when the write test is skipped
(line 220). -/
inductive WriteEntry where
  | ok (status_code : Nat) (writable : Bool) (response : String)
  | err (msg : String)
  | empty
deriving DecidableEq

/-- Python lookup of the writable key with default False (line 147). -/
def getWritable : WriteEntry → Bool
  | .ok _ w _ => w
  | _ => false

/-- Python truthiness of the error key: present and non-empty (line 150). -/
def errTruthy : WriteEntry → Bool
  | .err m => decide (m ≠ "")
  | _ => false

/-- The error message stored in the write result, if any. -/
def errMsgOf : WriteEntry → String
  | .err m => m
  | _ => ""

/-- The unique test path built at line 97 from the current timestamp. -/
def write_test_url (base : String) (now : Nat) : String :=
  base ++ "/security_test_" ++ toString now ++ ".json"

/-- `FirebaseChecker.check_public_write_access`: the PUT uses `timeout=10`
(line 102); on writable (status 200 or 201) a DELETE cleanup with
`timeout=5` follows, whose failure is swallowed (lines 111-116); any
exception yields an error dict (lines 120-121). -/
def check_public_write_access (base : String) (net : Net) (now : Nat) :
    WriteEntry × List Request × List String :=
  let url := write_test_url base now
  match net .PUT url with
  | .ok r =>
    let writable := r.status == 200 || r.status == 201
    let entry := WriteEntry.ok r.status writable (if r.body ≠ "" then r.body.take 200 else "")
    if writable then
      let cleanup :=
        match net .DELETE url with
        | .ok _ => ["✅ Cleaned up test data"]
        | _ => ["⚠️  Could not clean up test data"]
      (entry, [⟨.PUT, url, 10⟩, ⟨.DELETE, url, 5⟩],
       ("Testing write access: " ++ url) :: cleanup)
    else
      (entry, [⟨.PUT, url, 10⟩], ["Testing write access: " ++ url])
  | .timeout m => (.err m, [⟨.PUT, url, 10⟩], ["Testing write access: " ++ url])
  | .connError m => (.err m, [⟨.PUT, url, 10⟩], ["Testing write access: " ++ url])
  | .otherExn m => (.err m, [⟨.PUT, url, 10⟩], ["Testing write access: " ++ url])

/-- Python lookup of the accessible key with default False (line 132). -/
def getAccessible : ReadEntry → Bool
  | .ok r => r.accessible
  | .err _ => false

/-- Python lookup of the has_data key with default False (line 133). -/
def getHasData : ReadEntry → Bool
  | .ok r => r.has_data.getD false
  | .err _ => false

/-- Python `True`/`False` display. -/
def pyBool (b : Bool) : String := if b then "True" else "False"

/-- Display of the has_data key with default N/A, at line 176. -/
def hasDataDisplay : Option Bool → String
  | some b => pyBool b
  | none => "N/A"

/-- The `"="*60` separator. -/
def eqLine : String := String.mk (List.replicate 60 '=')

/-- The read-access section of the report (lines 135-143). -/
def readSectionLines (public_readable has_data : Bool) : List String :=
  if public_readable then
    "❌ PUBLICLY READABLE - No authentication required!" ::
      (if has_data then ["⚠️  Database contains data that is publicly accessible"]
       else ["ℹ️  Database is empty or contains null values"])
  else ["✅ Read access properly restricted"]

/-- The write-access section of the report (lines 146-153): exactly one of
the three outcomes is printed. -/
def writeSectionLines (w : WriteEntry) : List String :=
  if getWritable w then
    ["❌ PUBLICLY WRITABLE - Anyone can modify data!", "🚨 CRITICAL SECURITY RISK!"]
  else if errTruthy w then
    ["⚠️  Could not test write access: " ++ errMsgOf w]
  else ["✅ Write access properly restricted"]

/-- The overall-status section (lines 156-165). -/
def overallLines (insecure : Bool) : List String :=
  if insecure then
    ["🚨 INSECURE - Immediate action required!",
     "\n💡 RECOMMENDATIONS:",
     "   1. Review Firebase Security Rules",
     "   2. Implement proper authentication",
     "   3. Restrict database access to authenticated users only",
     "   4. Monitor database access logs"]
  else ["✅ Database appears to be properly secured"]

/-- The detailed-results loop (lines 168-176). -/
def detailLines : List (String × ReadEntry) → List String
  | [] => []
  | (e, .err m) :: rest =>
    ("\n   Endpoint: " ++ e) :: ("     Status: Error - " ++ m) :: detailLines rest
  | (e, .ok p) :: rest =>
    ("\n   Endpoint: " ++ e) ::
    ("     Status Code: " ++ toString p.status_code) ::
    ("     Accessible: " ++ pyBool p.accessible) ::
    ("     Has Data: " ++ hasDataDisplay p.has_data) :: detailLines rest

/-- `FirebaseChecker.generate_report`: the printed lines and the returned
insecurity flag, public read exposure or writable write result
(line 178). -/
def generate_report (base : String) (rs : List (String × ReadEntry)) (w : WriteEntry) :
    List String × Bool :=
  let public_readable := rs.any (fun p => getAccessible p.2)
  let has_data := rs.any (fun p => getHasData p.2)
  let insecure := public_readable || getWritable w
  (["\n" ++ eqLine,
    "🔍 FIREBASE SECURITY ANALYSIS REPORT",
    eqLine,
    "\n📍 Database URL: " ++ base,
    "\n📖 READ ACCESS:"]
   ++ readSectionLines public_readable has_data
   ++ ["\n✏️  WRITE ACCESS:"]
   ++ writeSectionLines w
   ++ ["\n🛡️  OVERALL SECURITY STATUS:"]
   ++ overallLines insecure
   ++ ["\n📊 DETAILED RESULTS:"]
   ++ detailLines rs,
   insecure)

/-- CLI arguments: positional url, `--skip-write-test`, `--timeout`
(default 10). -/
structure Args where
  firebase_url : String
  skip_write_test : Bool
  timeoutArg : Nat

/-- Everything observable about one run of `main` that completes without
interrupt: exit code, console output, the requests issued, and the
intermediate records the report was generated from.  `reportDone` is false
only on the invalid-URL path, which exits before any probing. -/
structure RunResult where
  exitCode : Nat
  output : List String
  trace : List Request
  readResults : List (String × ReadEntry)
  writeEntry : WriteEntry
  reportDone : Bool
  insecure : Bool

/-- The non-fatal warning emitted by `normalize_url` (lines 42-43). -/
def warnLines (u : String) : List String :=
  if !strContainsSub (netlocOf u) "firebaseio.com"
      && !strContainsSub (netlocOf u) "firebasedatabase.app" then
    ["⚠️  Warning: URL doesn\x27t appear to be a Firebase database URL"]
  else []

/-- The body of `main` once the URL validated (the happy path of the
try block, lines 209-231). -/
def mainValid (u : String) (args : Args) (net : Net) (now : Nat) : RunResult :=
  let head := warnLines u ++
    ["🔍 Checking Firebase database: " ++ u, "\n📖 Testing read access..."]
  let rd := check_public_read_access u net
  let wr :=
    if args.skip_write_test then
      ((WriteEntry.empty, ([] : List Request), ["\n✏️  Skipping write access test"]) :
        WriteEntry × List Request × List String)
    else
      let x := check_public_write_access u net now
      (x.1, x.2.1, "\n✏️  Testing write access..." :: x.2.2)
  let rep := generate_report u rd.1 wr.1
  { exitCode := if rep.2 then 1 else 0
    output := head ++ rd.2.2 ++ wr.2.2 ++ rep.1
    trace := rd.2.1 ++ wr.2.1
    readResults := rd.1
    writeEntry := wr.1
    reportDone := true
    insecure := rep.2 }

/-- `main`: normalize and validate the URL; an empty netloc raises
`ValueError`, caught at line 233 with exit code 2 before any request;
otherwise probe, report, and exit 1 when insecure else 0 (line 231). -/
def mainRun (args : Args) (net : Net) (now : Nat) : RunResult :=
  let u := normalizedOf args.firebase_url
  if netlocOf u = "" then
    { exitCode := 2
      output := ["❌ Invalid URL: Invalid Firebase URL format"]
      trace := []
      readResults := []
      writeEntry := .empty
      reportDone := false
      insecure := false }
  else mainValid u args net now

/-- A PUT outcome that models `requests` raising a network exception
whose `str(e)` is `m` (the `except Exception` at line 120). -/
def raisesExn (o : ReqOutcome) (m : String) : Prop :=
  o = .timeout m ∨ o = .connError m ∨ o = .otherExn m

/-! Concrete inputs used to instantiate the theorems. -/

/-- A network where every request is answered 401 with an empty body. -/
def netDenyAll : Net := fun _ _ => .ok ⟨401, "", none, none⟩

/-- A network where the PUT succeeds with 201 and everything else is 404. -/
def netPut201 : Net := fun m _ =>
  match m with
  | .PUT => .ok ⟨201, "null", some "application/json", some JsonValue.null⟩
  | _ => .ok ⟨404, "", none, none⟩

/-- A network where every GET returns 200 with body `[]` (an empty JSON
array) and writes are denied. -/
def netEmptyArr : Net := fun m _ =>
  match m with
  | .GET => .ok ⟨200, "[]", some "application/json", some (JsonValue.arr [])⟩
  | _ => .ok ⟨401, "", none, none⟩

/-- A network where every GET times out. -/
def netTimeoutAll : Net := fun _ _ => .timeout "t"

/-- A network where the PUT raises an exception with an empty message. -/
def netPutExnEmpty : Net := fun m _ =>
  match m with
  | .PUT => .otherExn ""
  | _ => .ok ⟨401, "", none, none⟩

/-- A network where the PUT raises a connection error with message `boom`. -/
def netPutConnBoom : Net := fun m _ =>
  match m with
  | .PUT => .connError "boom"
  | _ => .ok ⟨401, "", none, none⟩

/-- Standard arguments: a Firebase host, write test enabled. -/
def argsStd : Args := ⟨"demo.firebaseio.com", false, 10⟩

/-- Arguments with `--skip-write-test`. -/
def argsSkip : Args := ⟨"demo.firebaseio.com", true, 10⟩

/-- On an empty netloc, `mainRun` takes the `ValueError` path. -/
theorem mainRun_invalid (args : Args) (net : Net) (now : Nat)
    (h : netlocOf (normalizedOf args.firebase_url) = "") :
    mainRun args net now =
      { exitCode := 2
        output := ["❌ Invalid URL: Invalid Firebase URL format"]
        trace := []
        readResults := []
        writeEntry := .empty
        reportDone := false
        insecure := false } := by
  unfold mainRun
  rw [if_pos h]

/-- On a non-empty netloc, `mainRun` runs the probing pipeline. -/
theorem mainRun_valid (args : Args) (net : Net) (now : Nat)
    (h : netlocOf (normalizedOf args.firebase_url) ≠ "") :
    mainRun args net now = mainValid (normalizedOf args.firebase_url) args net now := by
  unfold mainRun
  rw [if_neg h]

/-- C1: in every run that completes the report phase, the insecurity flag
returned by `generate_report` is true exactly when some read probe
recorded `accessible == true` or the write result recorded
`writable == true`, and the exit code is 1 when the flag is true and 0
when it is false. -/
theorem insecure_flag_iff_read_or_write (args : Args) (net : Net) (now : Nat)
    (h : (mainRun args net now).reportDone = true) :
    (mainRun args net now).insecure =
      (((mainRun args net now).readResults.any fun p => getAccessible p.2)
        || getWritable (mainRun args net now).writeEntry) ∧
    (mainRun args net now).exitCode =
      (if (mainRun args net now).insecure then 1 else 0) := by
  by_cases hn : netlocOf (normalizedOf args.firebase_url) = ""
  · rw [mainRun_invalid args net now hn] at h
    exact absurd h (by simp)
  · rw [mainRun_valid args net now hn]
    exact ⟨rfl, rfl⟩

/-- Witness for C1 at a concrete secure run. -/
theorem insecure_flag_iff_read_or_write_witness :
    (mainRun argsStd netDenyAll 0).insecure =
      (((mainRun argsStd netDenyAll 0).readResults.any fun p => getAccessible p.2)
        || getWritable (mainRun argsStd netDenyAll 0).writeEntry) ∧
    (mainRun argsStd netDenyAll 0).exitCode =
      (if (mainRun argsStd netDenyAll 0).insecure then 1 else 0) :=
  insecure_flag_iff_read_or_write argsStd netDenyAll 0 (by decide)

/-- C6: when the normalized URL parses with an empty netloc, the run exits
with code 2, issues no network request, and prints only the invalid-URL
message. -/
theorem invalid_url_exit2_no_requests (args : Args) (net : Net) (now : Nat)
    (h : netlocOf (normalizedOf args.firebase_url) = "") :
    (mainRun args net now).exitCode = 2 ∧
    (mainRun args net now).trace = [] ∧
    (mainRun args net now).output = ["❌ Invalid URL: Invalid Firebase URL format"] := by
  rw [mainRun_invalid args net now h]
  exact ⟨rfl, rfl, rfl⟩

/-- Witness for C6: `https://` rstrips to `https:`, which has no netloc. -/
theorem invalid_url_exit2_no_requests_witness :
    (mainRun ⟨"https://", false, 10⟩ netDenyAll 0).exitCode = 2 ∧
    (mainRun ⟨"https://", false, 10⟩ netDenyAll 0).trace = [] ∧
    (mainRun ⟨"https://", false, 10⟩ netDenyAll 0).output =
      ["❌ Invalid URL: Invalid Firebase URL format"] :=
  invalid_url_exit2_no_requests ⟨"https://", false, 10⟩ netDenyAll 0 (by decide)

/-- C7: the read prober records exactly one entry per fixed endpoint, each
determined solely by the request to that endpoint; it issues exactly one
GET per endpoint (no retry); and a timeout or connection failure on an
endpoint yields an error-string entry for that endpoint while the others
are still probed. -/
theorem read_probe_per_endpoint (base : String) (net : Net) :
    (check_public_read_access base net).1 =
      (test_endpoints.map fun e => (e, entryOf net (base ++ e))) ∧
    (check_public_read_access base net).2.1 =
      (test_endpoints.map fun e => ⟨.GET, base ++ e, 10⟩) ∧
    (∀ e m, e ∈ test_endpoints → net .GET (base ++ e) = .timeout m →
      (e, ReadEntry.err "Request timed out") ∈ (check_public_read_access base net).1) ∧
    (∀ e m, e ∈ test_endpoints → net .GET (base ++ e) = .connError m →
      (e, ReadEntry.err "Connection error") ∈ (check_public_read_access base net).1) := by
  have hl : (check_public_read_access base net).1 =
      (test_endpoints.map fun e => (e, entryOf net (base ++ e))) := rfl
  refine ⟨hl, rfl, ?_, ?_⟩
  · intro e m he hnet
    rw [hl]
    exact List.mem_map.mpr ⟨e, he, by simp [entryOf, hnet]⟩
  · intro e m he hnet
    rw [hl]
    exact List.mem_map.mpr ⟨e, he, by simp [entryOf, hnet]⟩

/-- Witness for C7: on an all-timeout network, the root endpoint gets an
error-string entry. -/
theorem read_probe_per_endpoint_witness :
    (".json", ReadEntry.err "Request timed out") ∈
      (check_public_read_access "https://demo.firebaseio.com" netTimeoutAll).1 :=
  (read_probe_per_endpoint "https://demo.firebaseio.com" netTimeoutAll).2.2.1
    ".json" "t" (by decide) rfl

/-- The response used for C2: a 201 Created answer to the PUT. -/
def respCreated : Response := ⟨201, "null", some "application/json", some JsonValue.null⟩

/-- C2: when the PUT of the write probe returns HTTP 201 (and likewise 200),
the write result has `writable == true`, the printed report contains the
"PUBLICLY WRITABLE" line, and the run exits with code 1. -/
theorem put_201_writable_report_exit1 (args : Args) (net : Net) (now : Nat) (r : Response)
    (hskip : args.skip_write_test = false)
    (hn : netlocOf (normalizedOf args.firebase_url) ≠ "")
    (hput : net .PUT (write_test_url (normalizedOf args.firebase_url) now) = .ok r)
    (hst : r.status = 201 ∨ r.status = 200) :
    getWritable (mainRun args net now).writeEntry = true ∧
    "❌ PUBLICLY WRITABLE - Anyone can modify data!" ∈ (mainRun args net now).output ∧
    (mainRun args net now).exitCode = 1 := by
  have hw : (r.status == 200 || r.status == 201) = true := by
    rcases hst with h | h <;> simp [h]
  rw [mainRun_valid args net now hn]
  simp only [mainValid, hskip, if_false, Bool.false_eq_true,
    check_public_write_access, hput, hw, if_true, generate_report]
  refine ⟨rfl, ?_, by simp [getWritable]⟩
  simp [writeSectionLines, getWritable, List.mem_append]

/-- Witness for C2 at a concrete run whose PUT is answered 201. -/
theorem put_201_writable_report_exit1_witness :
    getWritable (mainRun argsStd netPut201 0).writeEntry = true ∧
    "❌ PUBLICLY WRITABLE - Anyone can modify data!" ∈ (mainRun argsStd netPut201 0).output ∧
    (mainRun argsStd netPut201 0).exitCode = 1 :=
  put_201_writable_report_exit1 argsStd netPut201 0 respCreated rfl (by decide) rfl (Or.inl rfl)

/-- C3 counterexample: `httpfoo.example.com` contains no scheme, yet the
normalizer leaves it unchanged because its first characters coincide with
`http`, so the output does not begin with `https://`. -/
theorem normalize_scheme_counterexample :
    hasScheme "httpfoo.example.com" = false ∧
    pyStartsWith (normalizedOf "httpfoo.example.com") "https://" = false ∧
    normalizedOf "httpfoo.example.com" = "httpfoo.example.com" := by
  refine ⟨by decide, by decide, by decide⟩

/-- C3 (amended): the normalizer prepends `https://` to the
trailing-slash-stripped input exactly when that string does not start with
the literal prefix `http`; a scheme-less input whose first characters are
`http` is left unchanged. -/
theorem normalize_prefix_check (s : String) :
    (pyStartsWith (rstripSlash s) "http" = false →
      normalizedOf s = "https://" ++ rstripSlash s) ∧
    (pyStartsWith (rstripSlash s) "http" = true →
      normalizedOf s = rstripSlash s) := by
  constructor <;> intro h <;> simp [normalizedOf, prependScheme, h]

/-- Witness for C3 (amended) on a scheme-less host with a trailing slash. -/
theorem normalize_prefix_check_witness :
    normalizedOf "demo.firebaseio.com/" = "https://" ++ rstripSlash "demo.firebaseio.com/" :=
  (normalize_prefix_check "demo.firebaseio.com/").1 (by decide)

/-- C4: the `--timeout` flag is parsed but never used; with `--timeout 3`
every read GET and the write PUT are still issued with `timeout=10`
(lines 61 and 102 hardcode it). -/
theorem timeout_flag_ignored :
    (mainRun ⟨"demo.firebaseio.com", false, 3⟩ netDenyAll 0).trace.map
        (fun r => r.timeoutSec) = [10, 10, 10, 10] := by
  decide

/-- C5 counterexample: a 200 response whose non-empty body decodes to the
empty JSON array is recorded with `has_data = True`, because line 74 only
compares the value against the empty dict. -/
theorem has_data_empty_array_counterexample :
    (check_public_read_access "https://demo.firebaseio.com" netEmptyArr).1.map
        (fun p => getHasData p.2) = [true, true, true] := by
  decide

/-- C5 (amended): on HTTP 200 with a non-empty body, a successful decode
records `has_data` true exactly when the value is non-null and not the
empty JSON object (so empty arrays and empty strings count as data), along
with the dynamic type name of the value; a decode failure records
`has_data = False` and a data type marked invalid_json. -/
theorem has_data_nonnull_nonemptyobj (r : Response)
    (h200 : r.status = 200) (hbody : r.body ≠ "") :
    (∀ v, r.jsonResult = some v →
      (mkProbe r).has_data = some (!v.isNull && !v.isEmptyObj) ∧
      (mkProbe r).data_type = some v.typeName) ∧
    (r.jsonResult = none →
      (mkProbe r).has_data = some false ∧
      (mkProbe r).data_type = some "invalid_json") := by
  constructor
  · intro v hv
    simp [mkProbe, if_pos (And.intro h200 hbody), hv, hasDataOf]
  · intro hv
    simp [mkProbe, if_pos (And.intro h200 hbody), hv]

/-- Witness for C5 (amended): a 200 response with body `[]`. -/
theorem has_data_nonnull_nonemptyobj_witness :
    (mkProbe ⟨200, "[]", some "application/json", some (JsonValue.arr [])⟩).has_data =
        some (!(JsonValue.arr []).isNull && !(JsonValue.arr []).isEmptyObj) ∧
    (mkProbe ⟨200, "[]", some "application/json", some (JsonValue.arr [])⟩).data_type =
        some (JsonValue.arr []).typeName :=
  (has_data_nonnull_nonemptyobj ⟨200, "[]", some "application/json", some (JsonValue.arr [])⟩
    rfl (by decide)).1 (JsonValue.arr []) rfl

/-- C8 counterexample: when the PUT raises an exception whose `str(e)` is
the empty string, the write result is the error record, yet the report
prints "Write access properly restricted" because the empty message is
falsy at line 150. -/
theorem write_exn_empty_msg_counterexample :
    (mainRun argsStd netPutExnEmpty 0).writeEntry = WriteEntry.err "" ∧
    writeSectionLines (mainRun argsStd netPutExnEmpty 0).writeEntry =
      ["✅ Write access properly restricted"] ∧
    "✅ Write access properly restricted" ∈ (mainRun argsStd netPutExnEmpty 0).output := by
  decide

/-- C8 (amended): when the PUT of the write probe raises a network exception,
the write result is an error record (with no `writable` field, so
`writable` is read as false); the write section of the report states that write
access could not be tested whenever the exception message is non-empty,
but with an empty message it states that write access is properly
restricted. -/
theorem write_exn_error_record (args : Args) (net : Net) (now : Nat) (m : String)
    (hskip : args.skip_write_test = false)
    (hn : netlocOf (normalizedOf args.firebase_url) ≠ "")
    (hexn : raisesExn (net .PUT (write_test_url (normalizedOf args.firebase_url) now)) m) :
    (mainRun args net now).writeEntry = WriteEntry.err m ∧
    getWritable (mainRun args net now).writeEntry = false ∧
    writeSectionLines (mainRun args net now).writeEntry =
      (if m = "" then ["✅ Write access properly restricted"]
       else ["⚠️  Could not test write access: " ++ m]) ∧
    (if m = "" then "✅ Write access properly restricted"
     else "⚠️  Could not test write access: " ++ m) ∈ (mainRun args net now).output := by
  have hwe : check_public_write_access (normalizedOf args.firebase_url) net now =
      (WriteEntry.err m,
       [⟨.PUT, write_test_url (normalizedOf args.firebase_url) now, 10⟩],
       ["Testing write access: " ++ write_test_url (normalizedOf args.firebase_url) now]) := by
    rcases hexn with h | h | h <;> simp [check_public_write_access, h]
  rw [mainRun_valid args net now hn]
  by_cases hm : m = ""
  · refine ⟨by simp [mainValid, hskip, hwe], by simp [mainValid, hskip, hwe, getWritable], ?_, ?_⟩
    · simp [mainValid, hskip, hwe, writeSectionLines, getWritable, errTruthy, errMsgOf, hm]
    · simp [mainValid, hskip, hwe, generate_report, writeSectionLines, getWritable,
        errTruthy, errMsgOf, hm, List.mem_append]
  · refine ⟨by simp [mainValid, hskip, hwe], by simp [mainValid, hskip, hwe, getWritable], ?_, ?_⟩
    · simp [mainValid, hskip, hwe, writeSectionLines, getWritable, errTruthy, errMsgOf, hm]
    · simp [mainValid, hskip, hwe, generate_report, writeSectionLines, getWritable,
        errTruthy, errMsgOf, hm, List.mem_append]

/-- Witness for C8 (amended): a connection error with message `boom`. -/
theorem write_exn_error_record_witness :
    (mainRun argsStd netPutConnBoom 0).writeEntry = WriteEntry.err "boom" ∧
    getWritable (mainRun argsStd netPutConnBoom 0).writeEntry = false ∧
    writeSectionLines (mainRun argsStd netPutConnBoom 0).writeEntry =
      (if "boom" = "" then ["✅ Write access properly restricted"]
       else ["⚠️  Could not test write access: " ++ "boom"]) ∧
    (if "boom" = "" then "✅ Write access properly restricted"
     else "⚠️  Could not test write access: " ++ "boom") ∈
      (mainRun argsStd netPutConnBoom 0).output :=
  write_exn_error_record argsStd netPutConnBoom 0 "boom" rfl (by decide)
    (Or.inr (Or.inl rfl))

/-- C9: with `--skip-write-test`, the run issues no PUT and no DELETE:
its trace is empty on an invalid URL and otherwise consists of exactly the
three read-probe GETs. -/
theorem skip_write_only_get_trace (args : Args) (net : Net) (now : Nat)
    (hskip : args.skip_write_test = true) :
    (mainRun args net now).trace =
      (if netlocOf (normalizedOf args.firebase_url) = "" then []
       else test_endpoints.map fun e => ⟨.GET, normalizedOf args.firebase_url ++ e, 10⟩) ∧
    ∀ r ∈ (mainRun args net now).trace, r.method = .GET := by
  by_cases hn : netlocOf (normalizedOf args.firebase_url) = ""
  · rw [mainRun_invalid args net now hn]
    simp [hn]
  · rw [mainRun_valid args net now hn, if_neg hn]
    constructor
    · simp [mainValid, hskip, check_public_read_access, readLoop, test_endpoints]
    · intro r hr
      simp [mainValid, hskip, check_public_read_access, readLoop, test_endpoints] at hr
      rcases hr with h | h | h <;> simp [h]

/-- Witness for C9 on a concrete skipped run. -/
theorem skip_write_only_get_trace_witness :
    (mainRun argsSkip netDenyAll 0).trace =
      (if netlocOf (normalizedOf argsSkip.firebase_url) = "" then []
       else test_endpoints.map fun e => ⟨.GET, normalizedOf argsSkip.firebase_url ++ e, 10⟩) :=
  (skip_write_only_get_trace argsSkip netDenyAll 0 rfl).1

/-- C10: with `--skip-write-test`, `main` hands the empty dict to the
report generator, whose write section then claims "Write access properly
restricted" (not "could not test") even though no write test ran, and the
insecurity flag and exit code are decided by the read probes alone. -/
theorem skip_write_empty_record_report (args : Args) (net : Net) (now : Nat)
    (hskip : args.skip_write_test = true)
    (hn : netlocOf (normalizedOf args.firebase_url) ≠ "") :
    (mainRun args net now).writeEntry = WriteEntry.empty ∧
    writeSectionLines (mainRun args net now).writeEntry =
      ["✅ Write access properly restricted"] ∧
    "✅ Write access properly restricted" ∈ (mainRun args net now).output ∧
    (mainRun args net now).insecure =
      ((mainRun args net now).readResults.any fun p => getAccessible p.2) ∧
    (mainRun args net now).exitCode =
      (if ((mainRun args net now).readResults.any fun p => getAccessible p.2)
       then 1 else 0) := by
  obtain ⟨url, skip, targ⟩ := args
  replace hskip : skip = true := hskip
  subst hskip
  rw [mainRun_valid ⟨url, true, targ⟩ net now hn]
  refine ⟨by simp [mainValid], ?_, ?_, ?_, ?_⟩
  · simp [mainValid, writeSectionLines, getWritable, errTruthy]
  · simp [mainValid, generate_report, writeSectionLines, getWritable,
      errTruthy, List.mem_append]
  · simp [mainValid, generate_report, getWritable]
  · have hor : ∀ b : Bool, (if (b || false) = true then (1 : Nat) else 0) =
        if b = true then 1 else 0 := by
      intro b
      cases b <;> rfl
    simp [mainValid, generate_report, getWritable, hor]

/-- Witness for C10 on a concrete skipped run. -/
theorem skip_write_empty_record_report_witness :
    (mainRun argsSkip netDenyAll 0).writeEntry = WriteEntry.empty ∧
    writeSectionLines (mainRun argsSkip netDenyAll 0).writeEntry =
      ["✅ Write access properly restricted"] ∧
    "✅ Write access properly restricted" ∈ (mainRun argsSkip netDenyAll 0).output ∧
    (mainRun argsSkip netDenyAll 0).insecure =
      ((mainRun argsSkip netDenyAll 0).readResults.any fun p => getAccessible p.2) ∧
    (mainRun argsSkip netDenyAll 0).exitCode =
      (if ((mainRun argsSkip netDenyAll 0).readResults.any fun p => getAccessible p.2)
       then 1 else 0) :=
  skip_write_empty_record_report argsSkip netDenyAll 0 rfl (by decide)

end Firebase
